import Mathlib

/-!
Verification development for the `SpeciesCard` component
(`src/app/species/species-card.tsx`).

The component displays a species record as a card, opens a dialog with
details, and — when the viewer is the record's author — offers an edit form
validated by a zod schema whose output is sent as a single update request
to the remote store.

Modelling conventions:
* JS strings are Lean `String`; `null`-able values are `Option`;
  JS `String.prototype.trim` is modelled by `String.trim` and
  `String.prototype.slice(0, n)` by `String.take n` (they agree on the
  ASCII inputs used in the concrete evaluations below).
* JS numbers flowing through the `total_population` field are modelled as
  rationals `ℚ`: the zod checks involved (`int`, `positive`, `min 1`) are
  exact comparisons, so no rounding behaviour is involved.
* Failure of a zod field parse is `none`; success carries the transformed
  output, so a field parser has type `input → Option output`.
* The external collaborators (Supabase update call, router refresh, toast)
  are modelled by recording their invocations in a `SubmitOutcome` value;
  the update call's result is an input (`Option String`, the error message)
  to the handler, matching the `{ error }` destructuring in the source.
-/

namespace SpeciesCard

/-- Model of JS `String.prototype.trim`: strip whitespace from both ends.
Structurally recursive so concrete evaluations reduce in the kernel; on the
ASCII whitespace relevant here it agrees with the JS built-in. -/
def jsTrim (s : String) : String :=
  String.mk
    (((s.toList.dropWhile Char.isWhitespace).reverse.dropWhile
        Char.isWhitespace).reverse)

/-- Model of JS `String.prototype.slice(0, n)`: the first `n` characters.
(JS counts UTF-16 units; the two agree on the basic-plane text used
here.) -/
def jsTake (s : String) (n : Nat) : String :=
  String.mk (s.toList.take n)

/-- The set of kingdom literals accepted by the zod enum `kingdoms`
(source line 30). -/
inductive Kingdom where
  | Animalia
  | Plantae
  | Fungi
  | Protista
  | Archaea
  | Bacteria
deriving DecidableEq, Repr

/-- A species row as supplied by the enclosing page (type `Species`,
source line 28): `id` and `author` are opaque identifiers, the remaining
columns are the editable fields.  The `kingdom` column is kept as the raw
string stored in the database. -/
structure Species where
  id : String
  scientific_name : String
  common_name : Option String
  kingdom : String
  total_population : Option ℚ
  image : Option String
  description : Option String
  author : String
deriving DecidableEq, Repr

/-- Modelled from the spec: the syntactic URL validator invoked by the zod
`url()` check (the WHATWG `URL` constructor, an external library).  The
parser first strips surrounding spaces, then requires an ASCII-letter-led
scheme terminated by a colon.  Everything the claims need from it is that
the empty and whitespace-only strings are rejected, scheme-less text is
rejected, and ordinary URLs are accepted. -/
def isSchemeTail : List Char → Bool
  | [] => false
  | c :: rest =>
      if c = ':' then true
      else (c.isAlphanum || c = '+' || c = '-' || c = '.') && isSchemeTail rest

/-- Modelled from the spec: see `isSchemeTail`.  `isValidUrl s` holds when
`s`, after trimming, starts with an ASCII letter followed by further scheme
characters and a colon. -/
def isValidUrl (s : String) : Bool :=
  match (jsTrim s).toList with
  | [] => false
  | c :: rest => c.isAlpha && isSchemeTail rest

/-- The transform shared by `common_name`, `image` and `description`
(source lines 43, 51, 56):
`(val) => (!val || val.trim() === "" ? null : val.trim())`.
JS falsiness: `null` and `""` are both falsy. -/
def nullableTrimTransform (val : Option String) : Option String :=
  match val with
  | none => none
  | some s => if s = "" ∨ jsTrim s = "" then none else some (jsTrim s)

/-- `scientific_name: z.string().trim().min(1).transform((val) => val?.trim())`
(source lines 34-38).  The zod `trim()` check rewrites the value to its
trimmed form before `min(1)` tests its length; the final transform trims
again (a no-op on the already-trimmed value, kept for fidelity). -/
def parse_scientific_name (val : String) : Option String :=
  let t := jsTrim val
  if 1 ≤ t.length then some (jsTrim t) else none

/-- `common_name: z.string().nullable().transform(...)` (source lines 39-43):
no check can fail; the transform normalizes empty/whitespace to `null`. -/
def parse_common_name (val : Option String) : Option (Option String) :=
  some (nullableTrimTransform val)

/-- `kingdom: kingdoms` — the zod enum over the six literals
(source lines 30, 44). -/
def parse_kingdom (val : String) : Option Kingdom :=
  if val = "Animalia" then some Kingdom.Animalia
  else if val = "Plantae" then some Kingdom.Plantae
  else if val = "Fungi" then some Kingdom.Fungi
  else if val = "Protista" then some Kingdom.Protista
  else if val = "Archaea" then some Kingdom.Archaea
  else if val = "Bacteria" then some Kingdom.Bacteria
  else none

/-- `total_population: z.number().int().positive().min(1).nullable()`
(source line 45): `null` passes; a number must be an integer (`den = 1`),
strictly positive, and at least 1. -/
def parse_total_population (val : Option ℚ) : Option (Option ℚ) :=
  match val with
  | none => some none
  | some q => if q.den = 1 ∧ 0 < q ∧ 1 ≤ q then some (some q) else none

/-- `image: z.string().url().nullable().transform(...)` (source lines 46-51).
The `url()` check runs on the string BEFORE the null-normalizing transform:
a non-null value that fails `isValidUrl` is rejected outright, so the
`nullableTrimTransform` is only reached by `null` or by strings the URL
parser accepted. -/
def parse_image (val : Option String) : Option (Option String) :=
  match val with
  | none => some (nullableTrimTransform none)
  | some s => if isValidUrl s then some (nullableTrimTransform (some s)) else none

/-- `description: z.string().nullable().transform(...)` (source lines 52-56):
identical shape to `common_name`. -/
def parse_description (val : Option String) : Option (Option String) :=
  some (nullableTrimTransform val)

/-- The raw working copy held by the react-hook-form store: field values as
they stand before schema validation.  `total_population` is the value after
the input's `setValueAs` (source lines 178-180), i.e. already `null` or a
number; the other text fields are raw strings (or `null` defaults). -/
structure RawForm where
  scientific_name : String
  common_name : Option String
  kingdom : String
  total_population : Option ℚ
  image : Option String
  description : Option String
deriving DecidableEq, Repr

/-- The validated, transformed output of the schema: what `onSubmit`
receives as `input`. -/
structure ParsedForm where
  scientific_name : String
  common_name : Option String
  kingdom : Kingdom
  total_population : Option ℚ
  image : Option String
  description : Option String
deriving DecidableEq, Repr

/-- `speciesSchema` as a whole (source lines 33-57): the object parse
succeeds exactly when every field parse succeeds, producing the record of
transformed values. -/
def speciesSchemaParse (raw : RawForm) : Option ParsedForm := do
  let sn ← parse_scientific_name raw.scientific_name
  let cn ← parse_common_name raw.common_name
  let k ← parse_kingdom raw.kingdom
  let tp ← parse_total_population raw.total_population
  let im ← parse_image raw.image
  let d ← parse_description raw.description
  pure { scientific_name := sn, common_name := cn, kingdom := k,
         total_population := tp, image := im, description := d }

/-- `setValueAs: (value) => (value === "" ? null : Number(value))` on the
total-population input (source line 179).  `numberOf` stands for the JS
`Number` conversion applied to the non-empty case. -/
def total_population_setValueAs (numberOf : String → ℚ) (value : String) : Option ℚ :=
  if value = "" then none else some (numberOf value)

/-- The `defaultValues` handed to `useForm` (source lines 67-74): the
working copy starts as a field-for-field copy of the record. -/
def defaultValues (species : Species) : RawForm :=
  { scientific_name := species.scientific_name
    common_name := species.common_name
    kingdom := species.kingdom
    total_population := species.total_population
    image := species.image
    description := species.description }

/-- The component-local state: the two `useState` booleans (source lines
60-61) plus the react-hook-form value store created by `useForm` (source
lines 65-76).  All three live at `SpeciesCard` level, so they survive
dialog close/reopen cycles and are destroyed only on unmount. -/
structure UIState where
  dialogOpen : Bool
  isEditing : Bool
  formValues : RawForm
deriving DecidableEq, Repr

/-- Component mount: both flags start `false` (source lines 60-61) and the
form store is initialized from the record (source lines 67-74).  This is
the only place the working copy is (re-)initialized: the source never calls
`form.reset`, and react-hook-form's default `shouldUnregister: false` keeps
field values in the store while their inputs are unmounted. -/
def initState (species : Species) : UIState :=
  { dialogOpen := false, isEditing := false, formValues := defaultValues species }

/-- User-interface events handled by the component:
* `learnMore` — the Learn More button's `onClick` (source lines 120-123):
  `setDialogOpen(true); setIsEditing(false)`.
* `dialogOpenChange b` — the dialog's `onOpenChange={setDialogOpen}`
  (source line 129); dismissal is `dialogOpenChange false`.  Note it does
  not touch `isEditing` or the form store.
* `clickEdit` — the Edit button's `onClick` (source lines 202-204):
  `setIsEditing(true)`.
* `set*` — a field edit through the registered inputs, writing the value
  into the react-hook-form store. -/
inductive Event where
  | learnMore
  | dialogOpenChange (b : Bool)
  | clickEdit
  | setScientificName (v : String)
  | setCommonName (v : Option String)
  | setKingdom (v : String)
  | setTotalPopulation (v : Option ℚ)
  | setImage (v : Option String)
  | setDescription (v : Option String)
deriving DecidableEq, Repr

/-- One event-handler invocation, translated from the handlers quoted at
`Event`.  No handler writes the form store except the field edits, and no
handler re-initializes it from the record. -/
def step (st : UIState) : Event → UIState
  | Event.learnMore => { st with dialogOpen := true, isEditing := false }
  | Event.dialogOpenChange b => { st with dialogOpen := b }
  | Event.clickEdit => { st with isEditing := true }
  | Event.setScientificName v =>
      { st with formValues := { st.formValues with scientific_name := v } }
  | Event.setCommonName v =>
      { st with formValues := { st.formValues with common_name := v } }
  | Event.setKingdom v =>
      { st with formValues := { st.formValues with kingdom := v } }
  | Event.setTotalPopulation v =>
      { st with formValues := { st.formValues with total_population := v } }
  | Event.setImage v =>
      { st with formValues := { st.formValues with image := v } }
  | Event.setDescription v =>
      { st with formValues := { st.formValues with description := v } }

/-- A sequence of user interactions from a given state. -/
def run (st : UIState) (events : List Event) : UIState :=
  events.foldl step st

/-- A field value as serialized into the update payload. -/
inductive FieldValue where
  | str (v : String)
  | optStr (v : Option String)
  | kgd (v : Kingdom)
  | optNum (v : Option ℚ)
deriving DecidableEq, Repr

/-- One Supabase update request:
`supabase.from(table).update(payload).eq(eqField, eqValue)`
(source lines 79-89). -/
structure UpdateRequest where
  table : String
  payload : List (String × FieldValue)
  eqField : String
  eqValue : String
deriving DecidableEq, Repr

/-- A toast invocation (source lines 93-97 and 102).  The source passes
`variant: "destructive"` on the error branch and no variant on the success
branch; `destructive` records that flag. -/
structure Toast where
  title : String
  description : String
  destructive : Bool
deriving DecidableEq, Repr

/-- Everything one submission attempt does, observed from outside:
the update requests issued, the values of the two state flags afterwards,
how many times `router.refresh()` ran, and the toasts raised. -/
structure SubmitOutcome where
  requests : List UpdateRequest
  dialogOpen : Bool
  isEditing : Bool
  refreshCount : Nat
  toasts : List Toast
deriving DecidableEq, Repr

/-- The update payload built in `onSubmit` (source lines 81-88), in source
order: exactly the six editable fields, never `id` or `author`. -/
def updatePayload (input : ParsedForm) : List (String × FieldValue) :=
  [("scientific_name", FieldValue.str input.scientific_name),
   ("common_name", FieldValue.optStr input.common_name),
   ("kingdom", FieldValue.kgd input.kingdom),
   ("total_population", FieldValue.optNum input.total_population),
   ("description", FieldValue.optStr input.description),
   ("image", FieldValue.optStr input.image)]

/-- The single update request of one submission (source lines 79-89):
table `"species"`, the six-field payload, filtered by equality of `"id"`
with the record's identifier. -/
def updateRequest (species : Species) (input : ParsedForm) : UpdateRequest :=
  { table := "species", payload := updatePayload input,
    eqField := "id", eqValue := species.id }

/-- `onSubmit` (source lines 78-103), as a function of the validated input
and of the error the awaited update call returned (`none` = no error).
On an error: early `return` with one destructive toast carrying the error
message — neither state flag is written and no refresh happens.  On
success: `setDialogOpen(false)`, one `router.refresh()`, one success toast;
`setIsEditing` is not called on either branch. -/
def onSubmit (species : Species) (st : UIState) (input : ParsedForm)
    (error : Option String) : SubmitOutcome :=
  let req := updateRequest species input
  match error with
  | some msg =>
      { requests := [req], dialogOpen := st.dialogOpen, isEditing := st.isEditing,
        refreshCount := 0,
        toasts := [{ title := "Something went wrong.", description := msg,
                     destructive := true }] }
  | none =>
      { requests := [req], dialogOpen := false, isEditing := st.isEditing,
        refreshCount := 1,
        toasts := [{ title := "Species updated!",
                     description := "Changes saved successfully.",
                     destructive := false }] }

/-- A blocked submission: `form.handleSubmit(onSubmit)` (source line 154)
does not invoke `onSubmit` when resolver validation fails, so nothing at
all is observed. -/
def blockedOutcome (st : UIState) : SubmitOutcome :=
  { requests := [], dialogOpen := st.dialogOpen, isEditing := st.isEditing,
    refreshCount := 0, toasts := [] }

/-- One submission attempt from state `st`: the zod resolver validates the
working copy; only on success does `onSubmit` run (source line 154 together
with the resolver on line 66). -/
def handleSubmit (species : Species) (st : UIState) (error : Option String) :
    SubmitOutcome :=
  match speciesSchemaParse st.formValues with
  | none => blockedOutcome st
  | some input => onSubmit species st input error

/-- The interactive controls and major view elements of the rendered
component, for stating which are present in a given state. -/
inductive Control where
  | learnMoreButton
  | editButton
  | saveChangesButton
  | editForm
  | detailView
deriving DecidableEq, Repr

/-- What the component renders in state `st` (source lines 105-211): the
Learn More button is always present; the dialog contents exist only while
`dialogOpen`; inside the dialog, the edit form (with its Save Changes
button) or the read-only detail view according to `isEditing`; and the Edit
button exactly under the guard on source line 199:
`species.author === sessionId && !isEditing`. -/
def renderedControls (species : Species) (sessionId : String) (st : UIState) :
    List Control :=
  [Control.learnMoreButton] ++
    (if st.dialogOpen then
      (if st.isEditing then [Control.editForm, Control.saveChangesButton]
       else [Control.detailView]) ++
        (if species.author == sessionId && !st.isEditing then [Control.editButton]
         else [])
     else [])

/-- The card's description summary line (source line 115):
`species.description ? species.description.slice(0, 150).trim() + "..." : ""`.
JS falsiness: both `null` and the empty string take the `""` branch. -/
def summaryText (description : Option String) : String :=
  match description with
  | none => ""
  | some s => if s = "" then "" else jsTrim (jsTake s 150) ++ "..."

/-- A concrete species record, for the concrete evaluations below. -/
def lionSpecies : Species :=
  { id := "3f2c", scientific_name := "Panthera leo", common_name := some "Lion",
    kingdom := "Animalia", total_population := some 20000, image := none,
    description := some "The lion is a large cat of the genus Panthera.",
    author := "user-1" }

/-- A concrete validated form value, for the concrete evaluations below. -/
def lionParsed : ParsedForm :=
  { scientific_name := "Panthera leo", common_name := some "Lion",
    kingdom := Kingdom.Animalia, total_population := some 20000,
    image := none,
    description := some "The lion is a large cat of the genus Panthera." }

/-- The state a submission is made from: dialog open, edit mode active. -/
def lionEditState : UIState :=
  { dialogOpen := true, isEditing := true, formValues := defaultValues lionSpecies }

/-- C1: a submission whose update call returns no error closes the dialog
(`dialogOpen` becomes `false`), triggers the view refresh exactly once, and
raises a success toast titled "Species updated!"; and on the error branch
none of these effects occurs (no refresh, `dialogOpen` untouched, no toast
with that title). -/
theorem c1_success_closes_refreshes_and_toasts (species : Species) (st : UIState)
    (input : ParsedForm) :
    (onSubmit species st input none).dialogOpen = false ∧
    (onSubmit species st input none).refreshCount = 1 ∧
    (onSubmit species st input none).toasts =
      [{ title := "Species updated!",
         description := "Changes saved successfully.", destructive := false }] ∧
    (∀ msg : String,
      (onSubmit species st input (some msg)).refreshCount = 0 ∧
      (onSubmit species st input (some msg)).dialogOpen = st.dialogOpen ∧
      ∀ t ∈ (onSubmit species st input (some msg)).toasts,
        t.title ≠ "Species updated!") := by
  refine ⟨rfl, rfl, rfl, fun msg => ⟨rfl, rfl, ?_⟩⟩
  intro t ht
  simp only [onSubmit, List.mem_singleton] at ht
  subst ht
  simp

/-- C2: a submission whose update call returns an error leaves the dialog
open and edit mode on, triggers no refresh, raises exactly one
destructive-styled toast whose description is the error message, and issues
no second (retry) request. -/
theorem c2_error_leaves_state_and_toasts (species : Species) (st : UIState)
    (input : ParsedForm) (msg : String)
    (hOpen : st.dialogOpen = true) (hEdit : st.isEditing = true) :
    (onSubmit species st input (some msg)).dialogOpen = true ∧
    (onSubmit species st input (some msg)).isEditing = true ∧
    (onSubmit species st input (some msg)).refreshCount = 0 ∧
    (onSubmit species st input (some msg)).toasts =
      [{ title := "Something went wrong.", description := msg,
         destructive := true }] ∧
    (onSubmit species st input (some msg)).requests.length = 1 := by
  simp [onSubmit, hOpen, hEdit]

/-- Witness for C2: the concrete record and editing state with the error
message "duplicate key". -/
theorem c2_error_leaves_state_and_toasts_witness :
    (onSubmit lionSpecies lionEditState lionParsed (some "duplicate key")).dialogOpen
        = true ∧
    (onSubmit lionSpecies lionEditState lionParsed (some "duplicate key")).isEditing
        = true ∧
    (onSubmit lionSpecies lionEditState lionParsed (some "duplicate key")).refreshCount
        = 0 ∧
    (onSubmit lionSpecies lionEditState lionParsed (some "duplicate key")).toasts =
      [{ title := "Something went wrong.", description := "duplicate key",
         destructive := true }] ∧
    (onSubmit lionSpecies lionEditState lionParsed (some "duplicate key")).requests.length
        = 1 :=
  c2_error_leaves_state_and_toasts lionSpecies lionEditState lionParsed
    "duplicate key" rfl rfl

/-- C5: every submission that reaches the handler issues exactly one update
request, keyed by equality of `"id"` with the record's identifier, whose
payload is exactly the six editable fields — on both branches, whatever the
call's result — and the payload never contains `id` or `author`. -/
theorem c5_single_request_exactly_six_fields (species : Species) (st : UIState)
    (input : ParsedForm) (error : Option String) :
    (onSubmit species st input error).requests = [updateRequest species input] ∧
    (updateRequest species input).table = "species" ∧
    (updateRequest species input).eqField = "id" ∧
    (updateRequest species input).eqValue = species.id ∧
    (updateRequest species input).payload.map Prod.fst =
      ["scientific_name", "common_name", "kingdom", "total_population",
       "description", "image"] ∧
    "id" ∉ (updateRequest species input).payload.map Prod.fst ∧
    "author" ∉ (updateRequest species input).payload.map Prod.fst := by
  cases error <;>
    simp [onSubmit, updateRequest, updatePayload]

/-- C9: the Edit button is rendered exactly when the dialog is open, the
record's author equals the session identifier, and edit mode is not already
active; in particular it is absent whenever author and session differ. -/
theorem c9_edit_button_rendered_iff (species : Species) (sessionId : String)
    (st : UIState) :
    Control.editButton ∈ renderedControls species sessionId st ↔
      st.dialogOpen = true ∧ species.author = sessionId ∧ st.isEditing = false := by
  cases hdo : st.dialogOpen <;> cases hie : st.isEditing <;>
    by_cases hauth : species.author = sessionId <;>
      simp [renderedControls, hdo, hie, hauth]

/-- C10 counterexample: a record whose description is non-null but empty.
The claim demands the first 150 characters trimmed with "..." appended
(which is "..." here); the code's falsiness test sends the empty string to
the `""` branch instead. -/
theorem c10_empty_description_counterexample :
    summaryText (some "") = "" ∧
    summaryText (some "") ≠ jsTrim (jsTake "" 150) ++ "..." := by
  exact ⟨rfl, by decide⟩

/-- C10 amended: for every record whose description is non-null AND
non-empty, the summary is the first 150 characters, trimmed, with "..."
appended; for a null (or empty) description the summary is the empty
string. -/
theorem c10_summary_truncation_amended (s : String) (h : s ≠ "") :
    summaryText (some s) = jsTrim (jsTake s 150) ++ "..." ∧
    summaryText none = "" := by
  simp [summaryText, h]

/-- Witness for C10 amended at a concrete description. -/
theorem c10_summary_truncation_amended_witness :
    summaryText (some "The lion is a large cat of the genus Panthera.") =
      jsTrim (jsTake "The lion is a large cat of the genus Panthera." 150)
        ++ "..." ∧
    summaryText none = "" :=
  c10_summary_truncation_amended
    "The lion is a large cat of the genus Panthera." (by decide)

/-- C3 counterexample: open the dialog, enter edit mode, modify the
scientific-name field, dismiss without submitting, reopen and re-enter edit
mode.  The working form copy still holds the edited value — not the
record's original value as the claim states — because the form store lives
at component level, no handler re-initializes it, and react-hook-form keeps
values of unmounted inputs by default. -/
theorem c3_reopen_shows_edited_value :
    (run (initState lionSpecies)
        [Event.learnMore, Event.clickEdit, Event.setScientificName "Edited name",
         Event.dialogOpenChange false, Event.learnMore,
         Event.clickEdit]).formValues.scientific_name = "Edited name" ∧
    (run (initState lionSpecies)
        [Event.learnMore, Event.clickEdit, Event.setScientificName "Edited name",
         Event.dialogOpenChange false, Event.learnMore,
         Event.clickEdit]).formValues.scientific_name
      ≠ lionSpecies.scientific_name ∧
    (run (initState lionSpecies)
        [Event.learnMore, Event.clickEdit, Event.setScientificName "Edited name",
         Event.dialogOpenChange false, Event.learnMore,
         Event.clickEdit]).isEditing = true := by
  decide

/-- C3 amended: the working form copy is initialized from the record only
at component mount; opening, dismissing and re-entering edit mode never
write the form store, so edits abandoned by dismissal persist and reappear
when the dialog is re-engaged (they remain recoverable until unmount). -/
theorem c3_form_values_persist_across_dialog_cycles (species : Species)
    (st : UIState) (e : Event) (v : String)
    (h : e = Event.learnMore ∨ e = Event.dialogOpenChange false ∨
         e = Event.clickEdit) :
    (step st e).formValues = st.formValues ∧
    (initState species).formValues = defaultValues species ∧
    (run (initState species)
        [Event.learnMore, Event.clickEdit, Event.setScientificName v,
         Event.dialogOpenChange false, Event.learnMore,
         Event.clickEdit]).formValues.scientific_name = v := by
  rcases h with h | h | h <;> subst h <;> exact ⟨rfl, rfl, rfl⟩

/-- Witness for C3 amended at a concrete record, state, event and edited
value. -/
theorem c3_form_values_persist_across_dialog_cycles_witness :
    (step lionEditState Event.learnMore).formValues = lionEditState.formValues ∧
    (initState lionSpecies).formValues = defaultValues lionSpecies ∧
    (run (initState lionSpecies)
        [Event.learnMore, Event.clickEdit,
         Event.setScientificName "Panthera persica",
         Event.dialogOpenChange false, Event.learnMore,
         Event.clickEdit]).formValues.scientific_name = "Panthera persica" :=
  c3_form_values_persist_across_dialog_cycles lionSpecies lionEditState
    Event.learnMore "Panthera persica" (Or.inl rfl)

/-- C4: evaluation of the image field parse at the claim's inputs.  The zod
`url()` check runs before the null-normalizing transform, so empty and
whitespace-only input FAILS validation instead of being normalized to the
absent value; `null` itself passes as absent, non-URL text fails, and an
accepted URL is kept trimmed. -/
theorem c4_image_empty_input_fails_validation :
    parse_image (some "") = none ∧
    parse_image (some "   ") = none ∧
    parse_image none = some none ∧
    parse_image (some "not a url") = none ∧
    parse_image (some "http://example.com/a.png") =
      some (some "http://example.com/a.png") ∧
    parse_image (some " http://example.com/a.png ") =
      some (some "http://example.com/a.png") := by
  decide

/-- C6: whenever the working copy's scientific name trims to the empty
string, the schema parse fails and the submission is blocked — `onSubmit`
is never invoked, so there is no request, no state change, no refresh and
no toast — regardless of every other field and of what the remote call
would have returned. -/
theorem c6_empty_scientific_name_blocks_submission (species : Species)
    (st : UIState) (error : Option String)
    (h : jsTrim st.formValues.scientific_name = "") :
    speciesSchemaParse st.formValues = none ∧
    handleSubmit species st error = blockedOutcome st := by
  have hsn : parse_scientific_name st.formValues.scientific_name = none := by
    simp [parse_scientific_name, h]
  have hschema : speciesSchemaParse st.formValues = none := by
    simp [speciesSchemaParse, hsn]
  exact ⟨hschema, by simp [handleSubmit, hschema]⟩

/-- Witness state for C6: a whitespace-only scientific name, every other
field well-formed. -/
def blankNameState : UIState :=
  { dialogOpen := true, isEditing := true,
    formValues := { scientific_name := "   ", common_name := some "Lion",
                    kingdom := "Animalia", total_population := some 20000,
                    image := none, description := none } }

/-- Witness for C6 at the concrete whitespace-name state. -/
theorem c6_empty_scientific_name_blocks_submission_witness :
    speciesSchemaParse blankNameState.formValues = none ∧
    handleSubmit lionSpecies blankNameState none = blockedOutcome blankNameState :=
  c6_empty_scientific_name_blocks_submission lionSpecies blankNameState none
    (by decide)

/-- C7: the total-population input's `setValueAs` maps the empty string to
null, which the schema accepts as absent; a numeric value that is
non-integer or non-positive fails the schema; an integer value ≥ 1 passes
through unchanged. -/
theorem c7_total_population_checks (numberOf : String → ℚ) (q : ℚ) (n : ℤ)
    (hq : q.den ≠ 1 ∨ q ≤ 0) (hn : 1 ≤ n) :
    total_population_setValueAs numberOf "" = none ∧
    parse_total_population none = some none ∧
    parse_total_population (some q) = none ∧
    parse_total_population (some (n : ℚ)) = some (some (n : ℚ)) := by
  refine ⟨rfl, rfl, ?_, ?_⟩
  · rw [parse_total_population, if_neg]
    rintro ⟨hden, hpos, -⟩
    rcases hq with hq | hq
    · exact hq hden
    · exact absurd hpos (not_lt.mpr hq)
  · rw [parse_total_population, if_pos]
    have h1 : (1 : ℚ) ≤ (n : ℚ) := by exact_mod_cast hn
    exact ⟨Rat.den_intCast n, lt_of_lt_of_le one_pos h1, h1⟩

/-- Witness for C7: `numberOf` as JS `Number` on no inputs, the
non-positive value -3, and the integer 20000. -/
theorem c7_total_population_checks_witness :
    total_population_setValueAs (fun _ => 0) "" = none ∧
    parse_total_population none = some none ∧
    parse_total_population (some (-3 : ℚ)) = none ∧
    parse_total_population (some ((20000 : ℤ) : ℚ)) =
      some (some ((20000 : ℤ) : ℚ)) :=
  c7_total_population_checks (fun _ => 0) (-3 : ℚ) 20000
    (Or.inr (by decide)) (by decide)

/-- C8: the common-name and description parses never fail; empty or
whitespace-only input is normalized to null by the transform before it can
reach the update call, and any other input is kept as its trimmed text. -/
theorem c8_common_name_description_normalization (s t : String)
    (hs : jsTrim s = "") (ht : jsTrim t ≠ "") :
    parse_common_name (some s) = some none ∧
    parse_description (some s) = some none ∧
    parse_common_name (some t) = some (some (jsTrim t)) ∧
    parse_description (some t) = some (some (jsTrim t)) := by
  have hts : t ≠ "" := by
    intro hteq
    exact ht (by rw [hteq]; decide)
  refine ⟨?_, ?_, ?_, ?_⟩ <;>
    simp [parse_common_name, parse_description, nullableTrimTransform,
          hs, ht, hts]

/-- Witness for C8 at a whitespace-only and a padded non-empty input. -/
theorem c8_common_name_description_normalization_witness :
    parse_common_name (some "  ") = some none ∧
    parse_description (some "  ") = some none ∧
    parse_common_name (some " Lion ") = some (some (jsTrim " Lion ")) ∧
    parse_description (some " Lion ") = some (some (jsTrim " Lion ")) :=
  c8_common_name_description_normalization "  " " Lion " (by decide) (by decide)

end SpeciesCard
